import Mathlib

/-!
Shallow embedding of `src/public/include/lib/wasmtime_linker/interface_wasmtime_linker.h`
(namespace `Arieo::Lib::WasmtimeLinker`): the typed-value converter
(`extractValue` / `createResultVal`), the generated host callback
(`generateCallbackImpl`), and the export-registry assembler
(`fillInterfaceExportInfo` / `generateLinkerExportInfo`).
-/

namespace WasmtimeLinker

/-- Tagged runtime value: `wasmtime::component::Val` restricted to the five scalar
tags this library reads or writes (s32, s64, u64, f32, f64).  Float payloads are
carried as raw bit patterns (`Nat` below `2^32` / `2^64`), which is faithful
because the source only moves floats between slots and never computes with them. -/
inductive Val where
  | s32 (v : Int)
  | s64 (v : Int)
  | u64 (v : Nat)
  | f32 (bits : Nat)
  | f64 (bits : Nat)
deriving DecidableEq, Repr

/-- Native C++ scalar types the converter supports: `int32_t`, `int64_t`,
`uint64_t`, `float`, `double`. -/
inductive CType where
  | i32
  | i64
  | u64
  | f32
  | f64
deriving DecidableEq, Repr

/-- A native scalar value together with its C++ type (constructor = type). -/
inductive CVal where
  | i32 (v : Int)
  | i64 (v : Int)
  | u64 (v : Nat)
  | f32 (bits : Nat)
  | f64 (bits : Nat)
deriving DecidableEq, Repr

/-- The C++ type of a native value. -/
def CVal.ctype : CVal → CType
  | .i32 _ => .i32
  | .i64 _ => .i64
  | .u64 _ => .u64
  | .f32 _ => .f32
  | .f64 _ => .f64

/-- Value-initialisation `T\x7b\x7d` of each supported native type: numeric zero
(for floats, bit pattern 0 is `+0.0`). -/
def CType.zeroVal : CType → CVal
  | .i32 => .i32 0
  | .i64 => .i64 0
  | .u64 => .u64 0
  | .f32 => .f32 0
  | .f64 => .f64 0

/-- The tag of a runtime value under the canonical tag/type correspondence
(s32 is `int32_t`, s64 is `int64_t`, u64 is `uint64_t`, f32 is `float`,
f64 is `double`). -/
def Val.tagOf : Val → CType
  | .s32 _ => .i32
  | .s64 _ => .i64
  | .u64 _ => .u64
  | .f32 _ => .f32
  | .f64 _ => .f64

/-- the C++ `static_cast<int64_t>` applied to a `uint64_t`: two's-complement
reinterpretation of the low 64 bits. -/
def uint64ToInt64 (u : Nat) : Int :=
  if u % 2 ^ 64 < 2 ^ 63 then ((u % 2 ^ 64 : Nat) : Int)
  else ((u % 2 ^ 64 : Nat) : Int) - 2 ^ 64

/-- Source function `extractValue<T>(val, index)`: each supported `T` reads the
value when the tag is accepted for `T`, otherwise falls through to `T\x7b\x7d`.
`T = int64_t` additionally accepts a u64-tagged value, converting it with
`static_cast<int64_t>` ("Also try u64 for int64_t (handle/pointer types from
WASM)"); every other type accepts exactly its own tag.  The `index` argument is
used only for logging in the source and is dropped here. -/
def extractValue : CType → Val → CVal
  | .i32, .s32 v => .i32 v
  | .i32, _ => .i32 0
  | .i64, .s64 v => .i64 v
  | .i64, .u64 u => .i64 (uint64ToInt64 u)
  | .i64, _ => .i64 0
  | .u64, .u64 u => .u64 u
  | .u64, _ => .u64 0
  | .f32, .f32 b => .f32 b
  | .f32, _ => .f32 0
  | .f64, .f64 b => .f64 b
  | .f64, _ => .f64 0

/-- Source function `createResultVal<Ret>(result)`: wraps a native result into a
runtime value, tagging each supported type with its own tag (the `static_cast`s
in the source are identity casts, `Ret` already having the branch's type).  The
final fall-through `Val(int32_t 0)` is for unsupported `Ret` types, which have
no `CVal` representative. -/
def createResultVal : CVal → Val
  | .i32 v => .s32 v
  | .i64 v => .s64 v
  | .u64 u => .u64 u
  | .f32 b => .f32 b
  | .f64 b => .f64 b

/-- Whether `extractValue<T>` accepts the tag of `val` (reads a value rather than
falling through to zero): each type accepts its own tag, and `int64_t` also
accepts u64. -/
def tagAcceptedB : CType → Val → Bool
  | .i32, .s32 _ => true
  | .i64, .s64 _ => true
  | .i64, .u64 _ => true
  | .u64, .u64 _ => true
  | .f32, .f32 _ => true
  | .f64, .f64 _ => true
  | _, _ => false

/-- C2: for every supported scalar type T and native value v of type T,
extracting T from `wrap(v)` yields v back, and re-wrapping yields a Typed Value
equal to `wrap(v)`: the converter round-trips on matching tags. -/
theorem extract_wrap_roundtrip (v : CVal) :
    extractValue v.ctype (createResultVal v) = v ∧
    createResultVal (extractValue v.ctype (createResultVal v)) = createResultVal v := by
  cases v <;> simp [CVal.ctype, createResultVal, extractValue]

/-- C3 counterexample: `extract<int64_t>` applied to the u64-tagged value 7 — a
Typed Value whose tag (u64) does not match `int64_t` — returns 7, not
`int64_t`'s zero value: the mismatched tag is converted, not zeroed. -/
theorem extract_i64_from_u64_not_zero :
    (Val.u64 7).tagOf ≠ CType.i64 ∧
    extractValue CType.i64 (Val.u64 7) ≠ CType.zeroVal CType.i64 := by
  constructor
  · simp [Val.tagOf]
  · simp [extractValue, uint64ToInt64, CType.zeroVal]

/-- C3 amended: for every supported native type T and every Typed Value whose
tag is not accepted for T — where `extract<int64_t>` accepts both the s64 and
the u64 tag (converting u64 by two's-complement cast), and every other type
accepts exactly its own tag — `extract<T>` returns T's zero value, never fails,
and the mismatch is substituted silently. -/
theorem extract_mismatch_zero (t : CType) (val : Val)
    (h : tagAcceptedB t val = false) :
    extractValue t val = t.zeroVal := by
  cases t <;> cases val <;> simp_all [tagAcceptedB, extractValue, CType.zeroVal]

/-- Witness for `extract_mismatch_zero` at T = `uint64_t`, val = s32-tagged 5. -/
theorem extract_mismatch_zero_witness :
    tagAcceptedB CType.u64 (Val.s32 5) = false ∧
    extractValue CType.u64 (Val.s32 5) = CType.zeroVal CType.u64 :=
  ⟨by decide, extract_mismatch_zero CType.u64 (Val.s32 5) (by decide)⟩

/-- Outcome of a host callback: `wasmtime::Result<std::monostate>` is either an
ok monostate or an error.  The source constructs only the ok form. -/
inductive Outcome where
  | ok
  | err
deriving DecidableEq, Repr

/-- Observable effect of one invocation of a generated callback: the output
span after the call, the list of invocations of the underlying host method
(instance pointer and extracted argument list, in order), and the outcome. -/
structure CallbackEffect where
  outputs : List Val
  calls : List (Int × List CVal)
  outcome : Outcome
deriving DecidableEq, Repr

/-- The extraction step of `generateCallbackImpl`, reading parameters starting
at input slot `i + 1`: parameter `i` (0-indexed over the declared parameter
types) is extracted via `extractValue<Args[i]>(args[i + 1], i + 1)`. -/
def extractArgsFrom (paramTypes : List CType) (args : List Val) (i : Nat) : List CVal :=
  match paramTypes with
  | [] => []
  | t :: ts => extractValue t (args.getD (i + 1) (.s32 0)) :: extractArgsFrom ts args (i + 1)

/-- The full extracted argument list of one callback invocation. -/
def extractArgs (paramTypes : List CType) (args : List Val) : List CVal :=
  extractArgsFrom paramTypes args 0

/-- The closure produced by `generateCallbackImpl`, as a function of the
statically fixed parameter-type list and the captured host method.  The method
is modelled as `Int → List CVal → Option CVal` (instance pointer and extracted
arguments to optional result); the `if constexpr (is_void_v<Ret>)` split in the
source corresponds to the method returning `none` (void) or `some r`.  Source
behaviour embedded: if `args.size() < 1 + sizeof...(Args)` the method is not
invoked and the ok outcome is returned; otherwise `args[0]` is extracted as
`int64_t` and reinterpreted as the instance pointer, a zero pointer again
returning ok without invoking; otherwise the method is invoked once on the
extracted arguments, and for a non-void method the result is wrapped into
`results[0]` when `results.size() > 0`.  All paths return ok. -/
def runCallback (paramTypes : List CType) (method : Int → List CVal → Option CVal)
    (args results : List Val) : CallbackEffect :=
  if args.length < 1 + paramTypes.length then
    { outputs := results, calls := [], outcome := .ok }
  else
    let instancePtr : Int :=
      match extractValue .i64 (args.getD 0 (.s32 0)) with
      | .i64 v => v
      | _ => 0
    if instancePtr = 0 then
      { outputs := results, calls := [], outcome := .ok }
    else
      let cargs := extractArgs paramTypes args
      match method instancePtr cargs with
      | none => { outputs := results, calls := [(instancePtr, cargs)], outcome := .ok }
      | some r =>
        if 0 < results.length then
          { outputs := results.set 0 (createResultVal r),
            calls := [(instancePtr, cargs)], outcome := .ok }
        else
          { outputs := results, calls := [(instancePtr, cargs)], outcome := .ok }

/-- The instance pointer a generated callback would decode from the first input
slot: `extractValue<int64_t>(args[0], 0)`. -/
def decodedInstancePtr (args : List Val) : Int :=
  match extractValue .i64 (args.getD 0 (.s32 0)) with
  | .i64 v => v
  | _ => 0

theorem runCallback_instancePtr (paramTypes : List CType)
    (method : Int → List CVal → Option CVal) (args results : List Val) :
    runCallback paramTypes method args results =
      if args.length < 1 + paramTypes.length then
        { outputs := results, calls := [], outcome := .ok }
      else if decodedInstancePtr args = 0 then
        { outputs := results, calls := [], outcome := .ok }
      else
        let cargs := extractArgs paramTypes args
        match method (decodedInstancePtr args) cargs with
        | none => { outputs := results, calls := [(decodedInstancePtr args, cargs)], outcome := .ok }
        | some r =>
          if 0 < results.length then
            { outputs := results.set 0 (createResultVal r),
              calls := [(decodedInstancePtr args, cargs)], outcome := .ok }
          else
            { outputs := results, calls := [(decodedInstancePtr args, cargs)], outcome := .ok } := by
  rfl

/-- C1: for every generated callback, if the input span has fewer than
`1 + parameter_count` elements, or input[0] decodes to a null (zero) instance
pointer, the underlying host method is never invoked and the callback returns
the benign ok outcome, with the output span untouched. -/
theorem short_or_null_no_invoke (paramTypes : List CType)
    (method : Int → List CVal → Option CVal) (args results : List Val)
    (h : args.length < 1 + paramTypes.length ∨ decodedInstancePtr args = 0) :
    (runCallback paramTypes method args results).calls = [] ∧
    (runCallback paramTypes method args results).outcome = .ok ∧
    (runCallback paramTypes method args results).outputs = results := by
  rw [runCallback_instancePtr]
  rcases h with h | h
  · simp [h]
  · by_cases hlen : args.length < 1 + paramTypes.length <;> simp [hlen, h]

/-- Witness for `short_or_null_no_invoke`: a one-parameter callback given a
single input (too few). -/
theorem short_or_null_no_invoke_witness :
    ([Val.s64 9].length < 1 + [CType.i32].length ∨ decodedInstancePtr [Val.s64 9] = 0) ∧
    ((runCallback [CType.i32] (fun _ _ => some (CVal.i32 1)) [Val.s64 9] [Val.s32 4]).calls = [] ∧
     (runCallback [CType.i32] (fun _ _ => some (CVal.i32 1)) [Val.s64 9] [Val.s32 4]).outcome = .ok ∧
     (runCallback [CType.i32] (fun _ _ => some (CVal.i32 1)) [Val.s64 9] [Val.s32 4]).outputs = [Val.s32 4]) :=
  ⟨Or.inl (by decide),
   short_or_null_no_invoke [CType.i32] (fun _ _ => some (CVal.i32 1)) [Val.s64 9] [Val.s32 4]
     (Or.inl (by decide))⟩

/-- C7 counterexample: a callback generated from a zero-parameter method, given
an input span of TWO elements whose first decodes to the valid instance pointer
5, still invokes the underlying method — so the callback does not require
exactly 1 input, only at least 1. -/
theorem zero_param_two_inputs_invokes :
    (runCallback [] (fun _ _ => none) [Val.s64 5, Val.s32 0] []).calls = [(5, [])] ∧
    [Val.s64 5, Val.s32 0].length ≠ 1 := by
  constructor
  · rfl
  · decide

/-- C7 amended: a callback generated from a zero-parameter method invokes the
underlying method if and only if the input span has at least one element and
input[0] decodes to a non-zero instance pointer. -/
theorem zero_param_invokes_iff (method : Int → List CVal → Option CVal)
    (args results : List Val) :
    (runCallback [] method args results).calls ≠ [] ↔
      (1 ≤ args.length ∧ decodedInstancePtr args ≠ 0) := by
  rw [runCallback_instancePtr]
  by_cases hlen : args.length < 1 + ([] : List CType).length
  · rw [if_pos hlen]
    refine iff_of_false (by simp) ?_
    rintro ⟨h1, -⟩
    simp only [List.length_nil] at hlen
    omega
  · by_cases hp : decodedInstancePtr args = 0
    · rw [if_neg hlen, if_pos hp]
      refine iff_of_false (by simp) ?_
      rintro ⟨-, h2⟩
      exact h2 hp
    · rw [if_neg hlen, if_neg hp]
      have hR : 1 ≤ args.length ∧ decodedInstancePtr args ≠ 0 := by
        refine ⟨?_, hp⟩
        simp only [List.length_nil] at hlen
        omega
      refine iff_of_true ?_ hR
      rcases hm : method (decodedInstancePtr args) (extractArgs [] args) with _ | r
      · simp [hm]
      · by_cases hr : 0 < results.length <;> simp [hm, hr]

/-- C8: a generated callback touches at most output slot 0: the output span
keeps its length, every slot other than 0 is unchanged, and for a void method
(one returning `none` always) the whole output span is unchanged. -/
theorem callback_output_frame (paramTypes : List CType)
    (method : Int → List CVal → Option CVal) (args results : List Val) :
    (runCallback paramTypes method args results).outputs.length = results.length ∧
    (∀ i, i ≠ 0 → (runCallback paramTypes method args results).outputs[i]? = results[i]?) ∧
    ((∀ p a, method p a = none) → (runCallback paramTypes method args results).outputs = results) := by
  rw [runCallback_instancePtr]
  by_cases hlen : args.length < 1 + paramTypes.length
  · simp [hlen]
  · by_cases hp : decodedInstancePtr args = 0
    · simp [hlen, hp]
    · rcases hm : method (decodedInstancePtr args) (extractArgs paramTypes args) with _ | r
      · simp [hlen, hp, hm]
      · by_cases hr : 0 < results.length
        · refine ⟨?_, ?_, ?_⟩
          · simp [hlen, hp, hm, hr]
          · intro i hi
            simp only [hlen, hp, hm, hr, if_false, if_true]
            simp [List.getElem?_set_ne (Ne.symm hi)]
          · intro hvoid
            simp [hvoid] at hm
        · simp [hlen, hp, hm, hr]

/-- Witness for `callback_output_frame` at a concrete void method and two
output slots. -/
theorem callback_output_frame_witness :
    (runCallback [] (fun _ _ => none) [Val.s64 1] [Val.s32 9, Val.s32 8]).outputs.length =
      [Val.s32 9, Val.s32 8].length ∧
    (∀ i, i ≠ 0 →
      (runCallback [] (fun _ _ => none) [Val.s64 1] [Val.s32 9, Val.s32 8]).outputs[i]? =
        [Val.s32 9, Val.s32 8][i]?) ∧
    ((∀ p a, (fun (_ : Int) (_ : List CVal) => (none : Option CVal)) p a = none) →
      (runCallback [] (fun _ _ => none) [Val.s64 1] [Val.s32 9, Val.s32 8]).outputs =
        [Val.s32 9, Val.s32 8]) :=
  callback_output_frame [] (fun _ _ => none) [Val.s64 1] [Val.s32 9, Val.s32 8]

/-- C4: a callback generated from a single-`int32_t`-parameter method returning
`uint64_t`, invoked with inputs `[s64 h, s32 7]` for a non-zero pointer `h` and
one output slot, invokes the method exactly once with argument 7 and writes the
method's result into output[0] tagged u64. -/
theorem single_param_u64_result (method : Int → List CVal → Option CVal)
    (h : Int) (r : Nat) (out0 : Val)
    (hh : h ≠ 0) (hm : method h [CVal.i32 7] = some (CVal.u64 r)) :
    runCallback [CType.i32] method [Val.s64 h, Val.s32 7] [out0] =
      { outputs := [Val.u64 r], calls := [(h, [CVal.i32 7])], outcome := .ok } := by
  have hd : decodedInstancePtr [Val.s64 h, Val.s32 7] = h := rfl
  have ha : extractArgs [CType.i32] [Val.s64 h, Val.s32 7] = [CVal.i32 7] := rfl
  rw [runCallback_instancePtr]
  simp only [hd, ha]
  simp [hh, hm, createResultVal]

/-- Witness for `single_param_u64_result` at pointer 1, result 42. -/
theorem single_param_u64_result_witness :
    (1 : Int) ≠ 0 ∧
    (fun (_ : Int) (_ : List CVal) => some (CVal.u64 42)) 1 [CVal.i32 7] = some (CVal.u64 42) ∧
    runCallback [CType.i32] (fun _ _ => some (CVal.u64 42)) [Val.s64 1, Val.s32 7] [Val.s32 0] =
      { outputs := [Val.u64 42], calls := [(1, [CVal.i32 7])], outcome := .ok } :=
  ⟨by decide, rfl,
   single_param_u64_result (fun _ _ => some (CVal.u64 42)) 1 42 (Val.s32 0) (by decide) rfl⟩

/-- C10: if a callback generated from a non-void method passes validation
(enough inputs, non-zero decoded instance pointer) but is given an empty output
span, the method is still invoked exactly once, its return value is discarded,
and the callback returns ok. -/
theorem nonvoid_empty_outputs (paramTypes : List CType)
    (method : Int → List CVal → Option CVal) (args : List Val) (r : CVal)
    (hlen : ¬ args.length < 1 + paramTypes.length)
    (hp : decodedInstancePtr args ≠ 0)
    (hm : method (decodedInstancePtr args) (extractArgs paramTypes args) = some r) :
    runCallback paramTypes method args [] =
      { outputs := [],
        calls := [(decodedInstancePtr args, extractArgs paramTypes args)],
        outcome := .ok } := by
  rw [runCallback_instancePtr]
  simp [hlen, hp, hm]

/-- Witness for `nonvoid_empty_outputs`: zero-parameter non-void method, one
valid input, no output slot. -/
theorem nonvoid_empty_outputs_witness :
    (¬ [Val.s64 1].length < 1 + ([] : List CType).length) ∧
    decodedInstancePtr [Val.s64 1] ≠ 0 ∧
    (fun (_ : Int) (_ : List CVal) => some (CVal.i32 3)) (decodedInstancePtr [Val.s64 1])
      (extractArgs [] [Val.s64 1]) = some (CVal.i32 3) ∧
    runCallback [] (fun _ _ => some (CVal.i32 3)) [Val.s64 1] [] =
      { outputs := [],
        calls := [(decodedInstancePtr [Val.s64 1], extractArgs [] [Val.s64 1])],
        outcome := .ok } :=
  ⟨by decide, by decide, rfl,
   nonvoid_empty_outputs [] (fun _ _ => some (CVal.i32 3)) [Val.s64 1] (CVal.i32 3)
     (by decide) (by decide) rfl⟩

/-- Modelled from the spec: per-member-function metadata yielded by
`Arieo::Base::InterfaceInfo<T>::iteratorMemberFunctions` (method pointer,
declared name, export (wit) name, function id, function checksum).  The
provider lives in `core/module/module.h`, which is not under src; the spec
describes it as the interface metadata provider.  The method pointer is
abstracted to a `Nat` identity, which also stands for the callback
`generateCallback(func_ptr)` produces, since that generation is a pure
function of the pointer. -/
structure FunctionMeta where
  funcPtr : Nat
  funcName : String
  witFuncName : String
  functionId : Nat
  functionChecksum : Nat
deriving DecidableEq, Repr

/-- Modelled from the spec: per-interface metadata supplied by
`Arieo::Base::InterfaceInfo<T>` (wit full interface name, interface id,
interface checksum, member functions) together with the structural type hash
`Arieo::Base::ct::genCrc32StringID(typeid(T).name())`; these come from
`core/module`, not under src. -/
structure InterfaceMeta where
  witFullInterfaceName : String
  interfaceId : Nat
  interfaceChecksum : Nat
  typeHash : Nat
  memberFunctions : List FunctionMeta
deriving DecidableEq, Repr

/-- Source struct `InterfaceFunctionExportInfo`: function name, id, checksum
and the generated host callback (represented by the captured method pointer's
identity). -/
structure InterfaceFunctionExportInfo where
  m_function_name : String
  m_function_id : Nat
  m_function_checksum : Nat
  m_host_callback : Nat
deriving DecidableEq, Repr

/-- Source struct `InterfaceExportInfo`.  The member-function array and count
are represented as one list (count = length). -/
structure InterfaceExportInfo where
  m_interface_name : String
  m_interaface_id : Nat
  m_interface_checksum : Nat
  m_interface_type_hash : Nat
  m_member_function_array : List InterfaceFunctionExportInfo
deriving DecidableEq, Repr

/-- Source struct `LinkerExportInfo`: interface array and count
(count = length). -/
structure LinkerExportInfo where
  m_interface_array : List InterfaceExportInfo
deriving DecidableEq, Repr

/-- One function descriptor as built inside the iterator callback of
`InterfaceExportInfoRegister<T>::fillInterfaceExportInfo`: wit name, id,
checksum, `generateCallback(func_ptr)`. -/
def buildFunctionExportInfo (f : FunctionMeta) : InterfaceFunctionExportInfo :=
  { m_function_name := f.witFuncName
    m_function_id := f.functionId
    m_function_checksum := f.functionChecksum
    m_host_callback := f.funcPtr }

/-- Source function `InterfaceExportInfoRegister<T>::fillInterfaceExportInfo`:
fills one interface descriptor from the interface metadata, iterating the
member functions in order. -/
def fillInterfaceExportInfo (m : InterfaceMeta) : InterfaceExportInfo :=
  { m_interface_name := m.witFullInterfaceName
    m_interaface_id := m.interfaceId
    m_interface_checksum := m.interfaceChecksum
    m_interface_type_hash := m.typeHash
    m_member_function_array := m.memberFunctions.map buildFunctionExportInfo }

/-- The registry contents `LinkerExportInfoRegister<Interfaces...>::
generateLinkerExportInfo` assembles: one descriptor per supplied interface
type, in pack (declaration) order. -/
def generateLinkerExportInfo (metas : List InterfaceMeta) : LinkerExportInfo :=
  { m_interface_array := metas.map fillInterfaceExportInfo }

/-- Process state across calls to `generateLinkerExportInfo`: the function-local
`static` storage persists (`stored`), and `fillRuns` counts how many times
`fillInterfaceExportInfo` has executed.  The source's body runs the pack
expansion — one `fillInterfaceExportInfo` call per interface — unconditionally
on every call; only the storage declaration is once-only. -/
structure LinkerState where
  fillRuns : Nat
  stored : Option LinkerExportInfo
deriving DecidableEq, Repr

/-- Fresh process state before the first call. -/
def LinkerState.init : LinkerState := { fillRuns := 0, stored := none }

/-- One call to `generateLinkerExportInfo` as a state transition: the fill loop
runs again (one fill per interface), overwrites the static storage with the
freshly built contents, and returns the registry. -/
def generateLinkerExportInfoCall (metas : List InterfaceMeta) (s : LinkerState) :
    LinkerState × LinkerExportInfo :=
  ({ fillRuns := s.fillRuns + metas.length, stored := some (generateLinkerExportInfo metas) },
   generateLinkerExportInfo metas)

/-- Modelled from the spec: the DLL-exported entry point
`link_interfaces(version_checksum)` (only its pointer type
`DLLExportLinkInterfacesFn` appears in src).  Per the spec it returns the
assembled registry; the assembler `generateLinkerExportInfo` takes no checksum
parameter, so the checksum cannot influence assembly. -/
def link_interfaces (metas : List InterfaceMeta) (_versionChecksum : Nat)
    (s : LinkerState) : LinkerState × LinkerExportInfo :=
  generateLinkerExportInfoCall metas s

/-- C5: building a registry from K interface types yields exactly K
descriptors, ordered as supplied (the i-th descriptor is built from the i-th
type), and — when the metadata provider supplies pairwise distinct
(id, checksum) pairs, as the spec's invariant requires — each descriptor's
(id, checksum) pair is unique within the registry. -/
theorem registry_count_order_unique (metas : List InterfaceMeta)
    (h : metas.Pairwise fun a b =>
      a.interfaceId ≠ b.interfaceId ∨ a.interfaceChecksum ≠ b.interfaceChecksum) :
    (generateLinkerExportInfo metas).m_interface_array.length = metas.length ∧
    (generateLinkerExportInfo metas).m_interface_array = metas.map fillInterfaceExportInfo ∧
    (generateLinkerExportInfo metas).m_interface_array.Pairwise
      (fun a b => a.m_interaface_id ≠ b.m_interaface_id ∨
        a.m_interface_checksum ≠ b.m_interface_checksum) := by
  refine ⟨by simp [generateLinkerExportInfo], rfl, ?_⟩
  simp only [generateLinkerExportInfo, List.pairwise_map]
  exact h.imp fun hab => hab

/-- Witness for `registry_count_order_unique` at two concrete interface
metadata entries with distinct ids. -/
theorem registry_count_order_unique_witness :
    ([⟨"a", 1, 10, 100, []⟩, ⟨"b", 2, 10, 200, [⟨7, "f", "wf", 3, 30⟩]⟩] :
        List InterfaceMeta).Pairwise
      (fun a b => a.interfaceId ≠ b.interfaceId ∨ a.interfaceChecksum ≠ b.interfaceChecksum) ∧
    ((generateLinkerExportInfo
        [⟨"a", 1, 10, 100, []⟩, ⟨"b", 2, 10, 200, [⟨7, "f", "wf", 3, 30⟩]⟩]).m_interface_array.length = 2 ∧
     (generateLinkerExportInfo
        [⟨"a", 1, 10, 100, []⟩, ⟨"b", 2, 10, 200, [⟨7, "f", "wf", 3, 30⟩]⟩]).m_interface_array =
       [⟨"a", 1, 10, 100, []⟩, ⟨"b", 2, 10, 200, [⟨7, "f", "wf", 3, 30⟩]⟩].map fillInterfaceExportInfo ∧
     (generateLinkerExportInfo
        [⟨"a", 1, 10, 100, []⟩, ⟨"b", 2, 10, 200, [⟨7, "f", "wf", 3, 30⟩]⟩]).m_interface_array.Pairwise
       (fun a b => a.m_interaface_id ≠ b.m_interaface_id ∨
         a.m_interface_checksum ≠ b.m_interface_checksum)) :=
  have hpw : ([⟨"a", 1, 10, 100, []⟩, ⟨"b", 2, 10, 200, [⟨7, "f", "wf", 3, 30⟩]⟩] :
      List InterfaceMeta).Pairwise
      (fun a b => a.interfaceId ≠ b.interfaceId ∨ a.interfaceChecksum ≠ b.interfaceChecksum) := by
    simp [List.pairwise_cons]
  ⟨hpw, registry_count_order_unique _ hpw⟩

/-- C6 counterexample: two successive calls to the entry point from a fresh
process state run the descriptor fill twice (once per call, here with a single
interface type), so construction is not at-most-once per process — a repeated
call does rebuild the descriptors. -/
theorem repeated_call_rebuilds :
    ((generateLinkerExportInfoCall [⟨"a", 1, 10, 100, []⟩]
        (generateLinkerExportInfoCall [⟨"a", 1, 10, 100, []⟩] LinkerState.init).1).1.fillRuns = 2) ∧
    ¬ ((generateLinkerExportInfoCall [⟨"a", 1, 10, 100, []⟩]
        (generateLinkerExportInfoCall [⟨"a", 1, 10, 100, []⟩] LinkerState.init).1).1.fillRuns ≤ 1) := by
  constructor
  · rfl
  · decide

/-- C6 amended: calling the entry point twice yields content-identical
registries — assembly is deterministic in the metadata, so the rebuild that the
second call performs produces the same contents (though it does rebuild). -/
theorem repeated_call_idempotent_content (metas : List InterfaceMeta) (s : LinkerState) :
    (generateLinkerExportInfoCall metas
        (generateLinkerExportInfoCall metas s).1).2 =
      (generateLinkerExportInfoCall metas s).2 := rfl

/-- C9: the registry returned by `link_interfaces(version_checksum)` is
identical for any two checksum values from the same state — the assembler never
branches on the checksum, and no compatibility check or rejection happens in
this layer. -/
theorem link_interfaces_ignores_checksum (metas : List InterfaceMeta)
    (c1 c2 : Nat) (s : LinkerState) :
    link_interfaces metas c1 s = link_interfaces metas c2 s := rfl

end WasmtimeLinker
